import Mathlib

/-
Verification of the salmon-marketplace MCP servers (Notion, Gmail, transport
loop) against their natural-language specification.  The TypeScript sources
are shallowly embedded: JSON values become the inductive `JVal`, argument
bags become records of `Option` fields mirroring the zod schemas, the
external SDK clients become a function parameter `client : RemoteCall → JVal`
so that every theorem can also count the remote calls an action performs,
and thrown validation errors become `Except.error`.
-/

/-- JSON-like values: argument bags, request payloads and remote results. -/
inductive JVal where
  | null : JVal
  | bool : Bool → JVal
  | num : Int → JVal
  | str : String → JVal
  | arr : List JVal → JVal
  | obj : List (String × JVal) → JVal

/-- First binding of `key` in a JSON object, as JS property access reads it. -/
def lookupJ (key : String) : List (String × JVal) → Option JVal
  | [] => none
  | (k, v) :: rest => if k = key then some v else lookupJ key rest

/-- Object spread followed by overriding `key`, keeping the key in place, as
JS `\x7b ...typed, key: v \x7d` behaves for a key already present. -/
def setJ (fields : List (String × JVal)) (key : String) (v : JVal) : List (String × JVal) :=
  fields.map (fun kv => if kv.1 = key then (kv.1, v) else kv)

/-- JS truthiness on an optional string: undefined and the empty string are
falsy, anything else is the value itself. -/
def truthy (v : Option String) : Option String :=
  match v with
  | some s => if s = "" then none else some s
  | none => none

/-- JS `a || b` on two optional strings. -/
def jsOr (a b : Option String) : Option String :=
  match a with
  | some s => if s = "" then b else some s
  | none => b

/-- An optional string serialized into a JSON field; undefined becomes null. -/
def optJ : Option String → JVal
  | some s => JVal.str s
  | none => JVal.null

/-- An optional request argument: absent arguments are dropped from the
request body, as the SDK clients drop undefined keys. -/
def optStrArg (key : String) : Option String → List (String × JVal)
  | some s => [(key, JVal.str s)]
  | none => []

def optNatArg (key : String) : Option Nat → List (String × JVal)
  | some n => [(key, JVal.num (Int.ofNat n))]
  | none => []

def optBoolArg (key : String) : Option Bool → List (String × JVal)
  | some b => [(key, JVal.bool b)]
  | none => []

def optStrListArg (key : String) : Option (List String) → List (String × JVal)
  | some l => [(key, JVal.arr (l.map JVal.str))]
  | none => []

def optJArg (key : String) : Option JVal → List (String × JVal)
  | some v => [(key, v)]
  | none => []

def optJListArg (key : String) : Option (List JVal) → List (String × JVal)
  | some l => [(key, JVal.arr l)]
  | none => []

def optFieldsArg (key : String) : Option (List (String × JVal)) → List (String × JVal)
  | some f => [(key, JVal.obj f)]
  | none => []

/-- One remote SDK operation: the SDK method reached and the request body
built for it.  The stubbed external client is a function `RemoteCall → JVal`. -/
structure RemoteCall where
  method : String
  args : List (String × JVal)

/-- Is an `Except` a success? -/
def isOkE {ε α : Type} : Except ε α → Bool
  | Except.ok _ => true
  | Except.error _ => false

namespace Notion

/-- The 19 values of the `NotionAction` enum in `src/mcp/src/index-sdk.ts`. -/
def actionValues : List String :=
  ["query_database", "create_database", "update_database", "get_database",
   "create_page", "get_page", "update_page", "get_page_property",
   "get_block_children", "append_block_children", "get_block", "update_block", "delete_block",
   "get_user", "list_users", "get_self",
   "get_comments", "create_comment",
   "search"]

/-- The message thrown by `requireParam` in `index-sdk.ts`. -/
def requireMsg (param action : String) : String :=
  "\"" ++ param ++ "\" is required for action \"" ++ action ++ "\""

/-- `requireParam` from `index-sdk.ts`: rejects undefined, null and the
empty string. -/
def requireParam (value : Option String) (param action : String) : Except String String :=
  match value with
  | none => Except.error (requireMsg param action)
  | some s => if s = "" then Except.error (requireMsg param action) else Except.ok s

/-- The body of the enrichment loop of `ensurePeopleFieldAutoAssign`: a
property value that is an object whose `people` member is the empty array is
re-spread with `people` set to the singleton acting user; everything else is
left alone. -/
def autoAssignValue (uid : String) (v : JVal) : JVal :=
  match v with
  | JVal.obj fields =>
    match lookupJ "people" fields with
    | some (JVal.arr []) =>
      JVal.obj (setJ fields "people" (JVal.arr [JVal.obj [("id", JVal.str uid)]]))
    | _ => v
  | _ => v

/-- `ensurePeopleFieldAutoAssign` from `index-sdk.ts`.  A falsy configured
user id returns the bag untouched; otherwise each property is processed by
`autoAssignValue`. -/
def ensurePeopleFieldAutoAssign (notionUserId : Option String)
    (properties : Option (List (String × JVal))) : Option (List (String × JVal)) :=
  match notionUserId with
  | none => properties
  | some uid =>
    if uid = "" then properties
    else
      match properties with
      | none => none
      | some props => some (props.map (fun kv => (kv.1, autoAssignValue uid kv.2)))

/-- The argument bag of the `use_notion` tool (the zod schema of
`index-sdk.ts`); every field but `action` is optional. -/
structure Params where
  action : String := ""
  database_id : Option String := none
  page_id : Option String := none
  block_id : Option String := none
  user_id : Option String := none
  property_id : Option String := none
  title : Option String := none
  properties : Option (List (String × JVal)) := none
  children : Option (List JVal) := none
  content : Option String := none
  parent : Option (List (String × JVal)) := none
  query : Option String := none
  filter : Option JVal := none
  sorts : Option (List JVal) := none
  limit : Option Nat := none
  start_cursor : Option String := none

/-- The rich-text title payload `[\x7btext: \x7bcontent: t\x7d\x7d]`. -/
def titleRich (t : String) : JVal :=
  JVal.arr [JVal.obj [("text", JVal.obj [("content", JVal.str t)])]]

/-- The paragraph block built from a `content` convenience string. -/
def paragraphBlock (c : String) : JVal :=
  JVal.obj [("object", JVal.str "block"), ("type", JVal.str "paragraph"),
    ("paragraph", JVal.obj [("rich_text",
      JVal.arr [JVal.obj [("type", JVal.str "text"),
        ("text", JVal.obj [("content", JVal.str c)])]])])]

/-- The whole params record serialized, for the `...params` spread of the
`update_block` case. -/
def paramsSpread (p : Params) : List (String × JVal) :=
  [("action", JVal.str p.action)] ++ optStrArg "database_id" p.database_id ++
  optStrArg "page_id" p.page_id ++ optStrArg "block_id" p.block_id ++
  optStrArg "user_id" p.user_id ++ optStrArg "property_id" p.property_id ++
  optStrArg "title" p.title ++ optFieldsArg "properties" p.properties ++
  optJListArg "children" p.children ++ optStrArg "content" p.content ++
  optFieldsArg "parent" p.parent ++ optStrArg "query" p.query ++
  optJArg "filter" p.filter ++ optJListArg "sorts" p.sorts ++
  optNatArg "limit" p.limit ++ optStrArg "start_cursor" p.start_cursor

end Notion

namespace Notion

/-- `executeNotionAction` from `index-sdk.ts`.  The Notion SDK client is the
function parameter `client`; the result pairs the list of remote calls
performed (every branch performs exactly one, after its validations) with
the raw remote response, and a thrown validation error is `Except.error`. -/
def executeNotionAction (notionUserId : Option String) (client : RemoteCall → JVal)
    (p : Params) : Except String (List RemoteCall × JVal) :=
  match p.action with
  | "query_database" =>
    match requireParam p.database_id "database_id" p.action with
    | Except.error e => Except.error e
    | Except.ok d =>
      let c : RemoteCall := ⟨"databases.query",
        [("database_id", JVal.str d)] ++ optJArg "filter" p.filter ++
        optJListArg "sorts" p.sorts ++ optStrArg "start_cursor" p.start_cursor ++
        optNatArg "page_size" p.limit⟩
      Except.ok ([c], client c)
  | "get_database" =>
    match requireParam p.database_id "database_id" p.action with
    | Except.error e => Except.error e
    | Except.ok d =>
      let c : RemoteCall := ⟨"databases.retrieve", [("database_id", JVal.str d)]⟩
      Except.ok ([c], client c)
  | "create_database" =>
    let titleV : JVal := match truthy p.title with
      | some t => titleRich t
      | none => JVal.arr []
    let c : RemoteCall := ⟨"databases.create",
      optFieldsArg "parent" p.parent ++ [("title", titleV)] ++
      optFieldsArg "properties" p.properties⟩
    Except.ok ([c], client c)
  | "update_database" =>
    match requireParam p.database_id "database_id" p.action with
    | Except.error e => Except.error e
    | Except.ok d =>
      let titleArgs : List (String × JVal) := match truthy p.title with
        | some t => [("title", titleRich t)]
        | none => []
      let c : RemoteCall := ⟨"databases.update",
        [("database_id", JVal.str d)] ++ titleArgs ++ optFieldsArg "properties" p.properties⟩
      Except.ok ([c], client c)
  | "create_page" =>
    let props0 := (ensurePeopleFieldAutoAssign notionUserId (some (p.properties.getD []))).getD []
    let pageProps := match truthy p.title with
      | some t =>
        if (lookupJ "title" props0).isNone then
          props0 ++ [("title", JVal.obj [("title", titleRich t)])]
        else props0
      | none => props0
    match (match p.parent with
           | some pr => Except.ok (JVal.obj pr)
           | none =>
             match requireParam p.database_id "database_id" p.action with
             | Except.error e => Except.error e
             | Except.ok d => Except.ok (JVal.obj [("database_id", JVal.str d)])) with
    | Except.error e => Except.error e
    | Except.ok parentV =>
      let c : RemoteCall := ⟨"pages.create",
        [("parent", parentV), ("properties", JVal.obj pageProps)]⟩
      Except.ok ([c], client c)
  | "get_page" =>
    match requireParam p.page_id "page_id" p.action with
    | Except.error e => Except.error e
    | Except.ok g =>
      let c : RemoteCall := ⟨"pages.retrieve", [("page_id", JVal.str g)]⟩
      Except.ok ([c], client c)
  | "update_page" =>
    match requireParam p.page_id "page_id" p.action with
    | Except.error e => Except.error e
    | Except.ok g =>
      let c : RemoteCall := ⟨"pages.update",
        [("page_id", JVal.str g)] ++ optFieldsArg "properties" p.properties⟩
      Except.ok ([c], client c)
  | "get_page_property" =>
    match requireParam p.page_id "page_id" p.action with
    | Except.error e => Except.error e
    | Except.ok g =>
      match requireParam p.property_id "property_id" p.action with
      | Except.error e => Except.error e
      | Except.ok pr =>
        let c : RemoteCall := ⟨"pages.properties.retrieve",
          [("page_id", JVal.str g), ("property_id", JVal.str pr)]⟩
        Except.ok ([c], client c)
  | "get_block_children" =>
    match requireParam p.block_id "block_id" p.action with
    | Except.error e => Except.error e
    | Except.ok b =>
      let c : RemoteCall := ⟨"blocks.children.list",
        [("block_id", JVal.str b)] ++ optStrArg "start_cursor" p.start_cursor ++
        optNatArg "page_size" p.limit⟩
      Except.ok ([c], client c)
  | "append_block_children" =>
    let children0 := p.children.getD []
    let children := match truthy p.content with
      | some ct => if children0.isEmpty then [paragraphBlock ct] else children0
      | none => children0
    match requireParam (match p.block_id with
                        | some s => some s
                        | none => p.page_id) "block_id or page_id" p.action with
    | Except.error e => Except.error e
    | Except.ok b =>
      let c : RemoteCall := ⟨"blocks.children.append",
        [("block_id", JVal.str b), ("children", JVal.arr children)]⟩
      Except.ok ([c], client c)
  | "get_block" =>
    match requireParam p.block_id "block_id" p.action with
    | Except.error e => Except.error e
    | Except.ok b =>
      let c : RemoteCall := ⟨"blocks.retrieve", [("block_id", JVal.str b)]⟩
      Except.ok ([c], client c)
  | "update_block" =>
    match requireParam p.block_id "block_id" p.action with
    | Except.error e => Except.error e
    | Except.ok b =>
      let c : RemoteCall := ⟨"blocks.update", ("block_id", JVal.str b) :: paramsSpread p⟩
      Except.ok ([c], client c)
  | "delete_block" =>
    match requireParam p.block_id "block_id" p.action with
    | Except.error e => Except.error e
    | Except.ok b =>
      let c : RemoteCall := ⟨"blocks.delete", [("block_id", JVal.str b)]⟩
      Except.ok ([c], client c)
  | "get_user" =>
    match requireParam p.user_id "user_id" p.action with
    | Except.error e => Except.error e
    | Except.ok u =>
      let c : RemoteCall := ⟨"users.retrieve", [("user_id", JVal.str u)]⟩
      Except.ok ([c], client c)
  | "list_users" =>
    let c : RemoteCall := ⟨"users.list",
      optStrArg "start_cursor" p.start_cursor ++ optNatArg "page_size" p.limit⟩
    Except.ok ([c], client c)
  | "get_self" =>
    let c : RemoteCall := ⟨"users.me", []⟩
    Except.ok ([c], client c)
  | "get_comments" =>
    match requireParam p.block_id "block_id" p.action with
    | Except.error e => Except.error e
    | Except.ok b =>
      let c : RemoteCall := ⟨"comments.list",
        [("block_id", JVal.str b)] ++ optStrArg "start_cursor" p.start_cursor ++
        optNatArg "page_size" p.limit⟩
      Except.ok ([c], client c)
  | "create_comment" =>
    match requireParam p.content "content" p.action with
    | Except.error e => Except.error e
    | Except.ok ct =>
      let c : RemoteCall := ⟨"comments.create",
        optFieldsArg "parent" p.parent ++
        [("rich_text", JVal.arr [JVal.obj [("text", JVal.obj [("content", JVal.str ct)])]])]⟩
      Except.ok ([c], client c)
  | "search" =>
    let c : RemoteCall := ⟨"search",
      optStrArg "query" p.query ++ optJArg "filter" p.filter ++
      optJListArg "sort" p.sorts ++ optStrArg "start_cursor" p.start_cursor ++
      optNatArg "page_size" p.limit⟩
    Except.ok ([c], client c)
  | _ => Except.error ("Unknown action: " ++ p.action)

/-- The result envelope the `use_notion` tool handler returns: the success
payload, or the caught error message under `isError: true`. -/
structure ToolResult where
  content : JVal
  isError : Bool

/-- The `use_notion` tool handler of `index-sdk.ts`: a success becomes a
json content item, any thrown error is caught and becomes a text content
item flagged `isError` (the handler is a total function, it never lets an
exception escape). -/
def useNotionHandler (notionUserId : Option String) (client : RemoteCall → JVal)
    (p : Params) : ToolResult :=
  match executeNotionAction notionUserId client p with
  | Except.ok (_, r) => ⟨JVal.obj [("type", JVal.str "json"), ("json", r)], false⟩
  | Except.error m =>
    ⟨JVal.obj [("type", JVal.str "text"), ("text", JVal.str ("Error: " ++ m))], true⟩

/-- The remote calls an invocation performs (none when it fails validation,
since in every branch the validations precede the single client call). -/
def callLog (notionUserId : Option String) (client : RemoteCall → JVal)
    (p : Params) : List RemoteCall :=
  match executeNotionAction notionUserId client p with
  | Except.ok (cs, _) => cs
  | Except.error _ => []

end Notion

namespace Simple

/-- The action enumeration declared in the `use_notion` tool schema of
`src/mcp/src/index-simple.ts` (the `tools` constant, in its order). -/
def declaredActions : List String :=
  ["query_database", "create_database", "update_database", "get_database",
   "create_page", "get_page", "update_page", "get_page_property",
   "get_block_children", "append_block_children", "get_block", "update_block", "delete_block",
   "get_user", "list_users", "get_self",
   "get_comments", "create_comment",
   "search"]

/-- A string-descriptor property of the declared input schema. -/
def strProp (d : String) : JVal :=
  JVal.obj [("type", JVal.str "string"), ("description", JVal.str d)]

/-- An object-descriptor property of the declared input schema. -/
def objProp (d : String) : JVal :=
  JVal.obj [("type", JVal.str "object"), ("description", JVal.str d)]

/-- An array-descriptor property of the declared input schema. -/
def arrProp (d : String) : JVal :=
  JVal.obj [("type", JVal.str "array"), ("description", JVal.str d)]

/-- The `tools` constant of `index-simple.ts`: one declared tool whose
schema enumerates `declaredActions`. -/
def tools : JVal :=
  JVal.arr [JVal.obj [
    ("name", JVal.str "use_notion"),
    ("description", JVal.str "Interact with Notion API - 19 actions covering databases, pages, blocks, users, comments, search."),
    ("inputSchema", JVal.obj [
      ("type", JVal.str "object"),
      ("properties", JVal.obj [
        ("action", JVal.obj [("type", JVal.str "string"),
          ("enum", JVal.arr (declaredActions.map JVal.str)),
          ("description", JVal.str "Action to perform")]),
        ("database_id", strProp "Database ID"),
        ("page_id", strProp "Page ID"),
        ("block_id", strProp "Block ID"),
        ("user_id", strProp "User ID"),
        ("property_id", strProp "Property ID"),
        ("title", strProp "Title/name"),
        ("properties", objProp "Properties object"),
        ("children", arrProp "Block children array"),
        ("content", strProp "Text content (converted to paragraph block)"),
        ("parent", objProp "Parent reference \x7bdatabase_id: ...\x7d or \x7bpage_id: ...\x7d"),
        ("query", strProp "Search/filter query"),
        ("filter", objProp "Database filter object"),
        ("sorts", arrProp "Sort array"),
        ("limit", JVal.obj [("type", JVal.str "number"), ("description", JVal.str "Result limit (default: 10)")]),
        ("start_cursor", strProp "Pagination cursor")]),
      ("required", JVal.arr [JVal.str "action"])])]]

/-- Set a key of a JS object: replace it if present, else append it. -/
def setOrAppendJ (fields : List (String × JVal)) (key : String) (v : JVal) :
    List (String × JVal) :=
  if (lookupJ key fields).isSome then setJ fields key v else fields ++ [(key, v)]

/-- The switch of `handleToolCall` in `index-simple.ts`: no per-action
validation, the possibly-absent arguments are forwarded to the SDK client
(absent keys are dropped); an unknown action throws. -/
def handleToolCallCore (client : RemoteCall → JVal) (p : Notion.Params) :
    Except String JVal :=
  match p.action with
  | "query_database" =>
    Except.ok (client ⟨"databases.query",
      optStrArg "database_id" p.database_id ++ optJArg "filter" p.filter ++
      optJListArg "sorts" p.sorts ++ optStrArg "start_cursor" p.start_cursor ++
      optNatArg "page_size" p.limit⟩)
  | "get_database" =>
    Except.ok (client ⟨"databases.retrieve", optStrArg "database_id" p.database_id⟩)
  | "create_database" =>
    Except.ok (client ⟨"databases.create",
      optFieldsArg "parent" p.parent ++
      [("title", match truthy p.title with
                 | some t => Notion.titleRich t
                 | none => JVal.arr [])] ++
      optFieldsArg "properties" p.properties⟩)
  | "update_database" =>
    Except.ok (client ⟨"databases.update",
      optStrArg "database_id" p.database_id ++
      (match truthy p.title with
       | some t => [("title", Notion.titleRich t)]
       | none => []) ++
      optFieldsArg "properties" p.properties⟩)
  | "create_page" =>
    let pageProps0 := p.properties.getD []
    let pageProps := match truthy p.title with
      | some t => setOrAppendJ pageProps0 "title" (JVal.obj [("title", Notion.titleRich t)])
      | none => pageProps0
    Except.ok (client ⟨"pages.create",
      [("parent", match p.parent with
                  | some pr => JVal.obj pr
                  | none => JVal.obj (optStrArg "database_id" p.database_id)),
       ("properties", JVal.obj pageProps)]⟩)
  | "get_page" =>
    Except.ok (client ⟨"pages.retrieve", optStrArg "page_id" p.page_id⟩)
  | "update_page" =>
    Except.ok (client ⟨"pages.update",
      optStrArg "page_id" p.page_id ++ optFieldsArg "properties" p.properties⟩)
  | "get_page_property" =>
    Except.ok (client ⟨"pages.properties.retrieve",
      optStrArg "page_id" p.page_id ++ optStrArg "property_id" p.property_id⟩)
  | "get_block_children" =>
    Except.ok (client ⟨"blocks.children.list",
      optStrArg "block_id" p.block_id ++ optStrArg "start_cursor" p.start_cursor ++
      optNatArg "page_size" p.limit⟩)
  | "append_block_children" =>
    let children0 := p.children.getD []
    let children := match truthy p.content with
      | some ct => if children0.isEmpty then [Notion.paragraphBlock ct] else children0
      | none => children0
    Except.ok (client ⟨"blocks.children.append",
      optStrArg "block_id" (jsOr p.block_id p.page_id) ++
      [("children", JVal.arr children)]⟩)
  | "get_block" =>
    Except.ok (client ⟨"blocks.retrieve", optStrArg "block_id" p.block_id⟩)
  | "update_block" =>
    Except.ok (client ⟨"blocks.update",
      optStrArg "block_id" p.block_id ++ Notion.paramsSpread p⟩)
  | "delete_block" =>
    Except.ok (client ⟨"blocks.delete", optStrArg "block_id" p.block_id⟩)
  | "get_user" =>
    Except.ok (client ⟨"users.retrieve", optStrArg "user_id" p.user_id⟩)
  | "list_users" =>
    Except.ok (client ⟨"users.list",
      optStrArg "start_cursor" p.start_cursor ++ optNatArg "page_size" p.limit⟩)
  | "get_self" =>
    Except.ok (client ⟨"users.me", []⟩)
  | "get_comments" =>
    Except.ok (client ⟨"comments.list",
      optStrArg "block_id" p.block_id ++ optStrArg "start_cursor" p.start_cursor ++
      optNatArg "page_size" p.limit⟩)
  | "create_comment" =>
    Except.ok (client ⟨"comments.create",
      optFieldsArg "parent" p.parent ++
      [("rich_text", JVal.arr [JVal.obj [("text",
        JVal.obj (optStrArg "content" p.content))]])]⟩)
  | "search" =>
    Except.ok (client ⟨"search",
      optStrArg "query" p.query ++ optJArg "filter" p.filter ++
      optJListArg "sort" p.sorts ++ optStrArg "start_cursor" p.start_cursor ++
      optNatArg "page_size" p.limit⟩)
  | _ => Except.error ("Unknown action: " ++ p.action)

/-- `handleToolCall` of `index-simple.ts`: the surrounding try/catch
rewraps any thrown message. -/
def handleToolCall (client : RemoteCall → JVal) (p : Notion.Params) :
    Except String JVal :=
  match handleToolCallCore client p with
  | Except.ok v => Except.ok v
  | Except.error m => Except.error ("Notion API error: " ++ m)

end Simple

namespace Simple

/-- A parsed request line (`MCPRequest` of `index-simple.ts`); for
`tools/call` the tool arguments are carried along. -/
structure MCPRequest where
  id : Int
  method : String
  args : Notion.Params := {}

/-- A response envelope: a result or an error with a numeric code. -/
inductive MCPResponse where
  | ok : Int → JVal → MCPResponse
  | err : Int → Int → String → MCPResponse

/-- The fixed `initialize` result of `index-simple.ts`. -/
def initializeResult : JVal :=
  JVal.obj [("protocolVersion", JVal.str "2024-11-05"),
    ("capabilities", JVal.obj [("tools", JVal.obj [])]),
    ("serverInfo", JVal.obj [("name", JVal.str "notion-mcp-pattern1"),
      ("version", JVal.str "4.1.0")])]

/-- The method branch of the line handler of `index-simple.ts`.  For
`tools/call` the successful result is placed in a text content item (its
JSON serialization to the wire is the transport collaborator and is kept as
the value itself here) and a caught error becomes `isError: true`; an
unknown method gets error code -32601. -/
def handleRequest (client : RemoteCall → JVal) (req : MCPRequest) : MCPResponse :=
  if req.method = "initialize" then MCPResponse.ok req.id initializeResult
  else if req.method = "tools/list" then
    MCPResponse.ok req.id (JVal.obj [("tools", tools)])
  else if req.method = "tools/call" then
    match handleToolCall client req.args with
    | Except.ok r =>
      MCPResponse.ok req.id (JVal.obj [
        ("content", JVal.arr [JVal.obj [("type", JVal.str "text"), ("text", r)]]),
        ("isError", JVal.bool false)])
    | Except.error m =>
      MCPResponse.ok req.id (JVal.obj [
        ("content", JVal.arr [JVal.obj [("type", JVal.str "text"), ("text", JVal.str m)]]),
        ("isError", JVal.bool true)])
  else MCPResponse.err req.id (-32601) ("Method not found: " ++ req.method)

/-- The stderr text of the catch-all of the line handler. -/
def lineErrorLog : String := "Error processing request"

/-- The `rl.on line` loop of `index-simple.ts` over a whole input stream:
`parse` is the JSON.parse collaborator (`none` on a malformed line).  First
component: the envelopes written to stdout; second: the stderr reports.  A
line that fails to parse is reported to stderr only and the loop continues
with the remaining lines. -/
def processLines (parse : String → Option MCPRequest) (client : RemoteCall → JVal) :
    List String → List MCPResponse × List String
  | [] => ([], [])
  | l :: rest =>
    let next := processLines parse client rest
    match parse l with
    | some req => (handleRequest client req :: next.1, next.2)
    | none => (next.1, lineErrorLog :: next.2)

end Simple

namespace Gmail

/-- The 26 values of the `GmailAction` enum of the Gmail pattern-1 wrapper. -/
def actionValues : List String :=
  ["list_messages", "get_message", "send_message", "modify_message",
   "trash_message", "delete_message",
   "list_threads", "get_thread", "modify_thread", "trash_thread",
   "untrash_thread", "delete_thread",
   "list_drafts", "get_draft", "create_draft", "send_draft", "delete_draft",
   "list_labels", "get_label", "create_label", "update_label", "delete_label",
   "get_profile", "get_attachment",
   "batch_modify_messages", "batch_delete_messages"]

/-- The argument bag of the `use_gmail` tool (its zod schema); every field
but `action` is optional. -/
structure Params where
  action : String := ""
  id : Option String := none
  messageId : Option String := none
  threadId : Option String := none
  draftId : Option String := none
  labelId : Option String := none
  attachmentId : Option String := none
  maxResults : Option Nat := none
  pageToken : Option String := none
  q : Option String := none
  labelIds : Option (List String) := none
  includeSpamTrash : Option Bool := none
  «to» : Option (List String) := none
  cc : Option (List String) := none
  bcc : Option (List String) := none
  subject : Option String := none
  body : Option String := none
  raw : Option String := none
  name : Option String := none
  labelListVisibility : Option String := none
  messageListVisibility : Option String := none
  color : Option JVal := none
  addLabelIds : Option (List String) := none
  removeLabelIds : Option (List String) := none
  ids : Option (List String) := none
  format : Option String := none
  metadataHeaders : Option (List String) := none

/-- The message thrown by the Gmail `requireParam`. -/
def requireMsg (paramName action : String) : String :=
  "Missing required parameter \x27" ++ paramName ++ "\x27 for action \x27" ++ action ++ "\x27"

/-- The Gmail `requireParam`: rejects only undefined and null; an empty
string passes. -/
def requireParam (value : Option String) (paramName action : String) :
    Except String String :=
  match value with
  | none => Except.error (requireMsg paramName action)
  | some s => Except.ok s

/-- The Gmail `requireParam` at list type (used for batch `ids`). -/
def requireParamList (value : Option (List String)) (paramName action : String) :
    Except String (List String) :=
  match value with
  | none => Except.error (requireMsg paramName action)
  | some l => Except.ok l

/-- JS `params.id || requireParam(other, name, action)`: a truthy explicit
id short-circuits, otherwise the fallback parameter is required. -/
def orRequire (a b : Option String) (paramName action : String) :
    Except String String :=
  match a with
  | some s => if s = "" then requireParam b paramName action else Except.ok s
  | none => requireParam b paramName action

/-- UTF-8 bytes of one character, as Buffer.from encodes the message. -/
def utf8Char (c : Char) : List Nat :=
  let n := c.toNat
  if n < 0x80 then [n]
  else if n < 0x800 then [0xC0 + n / 0x40, 0x80 + n % 0x40]
  else if n < 0x10000 then
    [0xE0 + n / 0x1000, 0x80 + (n / 0x40) % 0x40, 0x80 + n % 0x40]
  else
    [0xF0 + n / 0x40000, 0x80 + (n / 0x1000) % 0x40, 0x80 + (n / 0x40) % 0x40,
     0x80 + n % 0x40]

/-- UTF-8 bytes of a string. -/
def utf8Bytes (s : String) : List Nat := s.data.flatMap utf8Char

/-- The standard base64 alphabet. -/
def base64Alphabet : String :=
  "ABCDEFGHIJKLMNOPQRSTUVWXYZabcdefghijklmnopqrstuvwxyz0123456789+/"

def b64Char (n : Nat) : Char := base64Alphabet.data.getD n 'A'

/-- Standard base64 of a byte list, with padding. -/
def base64Groups : List Nat → List Char
  | [] => []
  | [b0] => [b64Char (b0 / 4), b64Char (b0 % 4 * 16), '=', '=']
  | [b0, b1] => [b64Char (b0 / 4), b64Char (b0 % 4 * 16 + b1 / 16), b64Char (b1 % 16 * 4), '=']
  | b0 :: b1 :: b2 :: rest =>
    b64Char (b0 / 4) :: b64Char (b0 % 4 * 16 + b1 / 16) ::
    b64Char (b1 % 16 * 4 + b2 / 64) :: b64Char (b2 % 64) :: base64Groups rest

/-- The base64url post-processing of `encodeMessage`: plus to minus, slash
to underscore. -/
def urlSafeChar (c : Char) : Char :=
  if c = '+' then '-' else if c = '/' then '_' else c

/-- Trailing padding removal (`replace(/=+$/, "")`). -/
def stripPadding (cs : List Char) : List Char :=
  ((cs.reverse.dropWhile (fun c => c = '=')).reverse)

/-- `encodeMessage` of the Gmail wrapper: UTF-8, base64, then the base64url
substitutions and padding strip. -/
def encodeMessage (message : String) : String :=
  String.mk (stripPadding ((base64Groups (utf8Bytes message)).map urlSafeChar))

/-- `createEmailMessage` of the Gmail wrapper: the RFC 2822 lines in fixed
order (To, Cc, Bcc, Subject when present and non-empty, then the two fixed
headers, a blank line and the body) joined with CRLF. -/
def createEmailMessage (params : Params) : String :=
  let lines : List String :=
    (match params.«to» with
     | some l => if l.isEmpty then [] else ["To: " ++ String.intercalate ", " l]
     | none => []) ++
    (match params.cc with
     | some l => if l.isEmpty then [] else ["Cc: " ++ String.intercalate ", " l]
     | none => []) ++
    (match params.bcc with
     | some l => if l.isEmpty then [] else ["Bcc: " ++ String.intercalate ", " l]
     | none => []) ++
    (match truthy params.subject with
     | some s => ["Subject: " ++ s]
     | none => []) ++
    ["Content-Type: text/plain; charset=utf-8", "MIME-Version: 1.0", "",
     params.body.getD ""]
  String.intercalate "\r\n" lines

end Gmail

namespace Gmail

/-- `executeGmailAction` of the Gmail pattern-1 wrapper, messages and
threads part; the Gmail API client is the `client` function parameter.  As
for Notion, the result pairs the remote calls performed with the shaped
result value, and each branch validates before calling. -/
def executeGmailAction (client : RemoteCall → JVal) (p : Params) :
    Except String (List RemoteCall × JVal) :=
  match p.action with
  | "list_messages" =>
    let c : RemoteCall := ⟨"users.messages.list",
      [("userId", JVal.str "me")] ++ optNatArg "maxResults" p.maxResults ++
      optStrArg "pageToken" p.pageToken ++ optStrArg "q" p.q ++
      optStrListArg "labelIds" p.labelIds ++
      optBoolArg "includeSpamTrash" p.includeSpamTrash⟩
    Except.ok ([c], client c)
  | "get_message" =>
    match orRequire p.id p.messageId "id or messageId" p.action with
    | Except.error e => Except.error e
    | Except.ok i =>
      let c : RemoteCall := ⟨"users.messages.get",
        [("userId", JVal.str "me"), ("id", JVal.str i),
         ("format", JVal.str ((truthy p.format).getD "full"))] ++
        optStrListArg "metadataHeaders" p.metadataHeaders⟩
      Except.ok ([c], client c)
  | "send_message" =>
    let rawMessage := match truthy p.raw with
      | some r => r
      | none => encodeMessage (createEmailMessage p)
    let c : RemoteCall := ⟨"users.messages.send",
      [("userId", JVal.str "me"), ("raw", JVal.str rawMessage)] ++
      optStrArg "threadId" p.threadId⟩
    Except.ok ([c], client c)
  | "modify_message" =>
    match orRequire p.id p.messageId "id or messageId" p.action with
    | Except.error e => Except.error e
    | Except.ok i =>
      let c : RemoteCall := ⟨"users.messages.modify",
        [("userId", JVal.str "me"), ("id", JVal.str i)] ++
        optStrListArg "addLabelIds" p.addLabelIds ++
        optStrListArg "removeLabelIds" p.removeLabelIds⟩
      Except.ok ([c], client c)
  | "trash_message" =>
    match orRequire p.id p.messageId "id or messageId" p.action with
    | Except.error e => Except.error e
    | Except.ok i =>
      let c : RemoteCall := ⟨"users.messages.trash",
        [("userId", JVal.str "me"), ("id", JVal.str i)]⟩
      Except.ok ([c], client c)
  | "delete_message" =>
    match orRequire p.id p.messageId "id or messageId" p.action with
    | Except.error e => Except.error e
    | Except.ok i =>
      let c : RemoteCall := ⟨"users.messages.delete",
        [("userId", JVal.str "me"), ("id", JVal.str i)]⟩
      Except.ok ([c], JVal.obj [("success", JVal.bool true),
        ("deleted", optJ (jsOr p.id p.messageId))])
  | "list_threads" =>
    let c : RemoteCall := ⟨"users.threads.list",
      [("userId", JVal.str "me")] ++ optNatArg "maxResults" p.maxResults ++
      optStrArg "pageToken" p.pageToken ++ optStrArg "q" p.q ++
      optStrListArg "labelIds" p.labelIds ++
      optBoolArg "includeSpamTrash" p.includeSpamTrash⟩
    Except.ok ([c], client c)
  | "get_thread" =>
    match orRequire p.id p.threadId "id or threadId" p.action with
    | Except.error e => Except.error e
    | Except.ok i =>
      let c : RemoteCall := ⟨"users.threads.get",
        [("userId", JVal.str "me"), ("id", JVal.str i)] ++
        optStrArg "format" p.format ++
        optStrListArg "metadataHeaders" p.metadataHeaders⟩
      Except.ok ([c], client c)
  | "modify_thread" =>
    match orRequire p.id p.threadId "id or threadId" p.action with
    | Except.error e => Except.error e
    | Except.ok i =>
      let c : RemoteCall := ⟨"users.threads.modify",
        [("userId", JVal.str "me"), ("id", JVal.str i)] ++
        optStrListArg "addLabelIds" p.addLabelIds ++
        optStrListArg "removeLabelIds" p.removeLabelIds⟩
      Except.ok ([c], client c)
  | "trash_thread" =>
    match orRequire p.id p.threadId "id or threadId" p.action with
    | Except.error e => Except.error e
    | Except.ok i =>
      let c : RemoteCall := ⟨"users.threads.trash",
        [("userId", JVal.str "me"), ("id", JVal.str i)]⟩
      Except.ok ([c], client c)
  | "untrash_thread" =>
    match orRequire p.id p.threadId "id or threadId" p.action with
    | Except.error e => Except.error e
    | Except.ok i =>
      let c : RemoteCall := ⟨"users.threads.untrash",
        [("userId", JVal.str "me"), ("id", JVal.str i)]⟩
      Except.ok ([c], client c)
  | "delete_thread" =>
    match orRequire p.id p.threadId "id or threadId" p.action with
    | Except.error e => Except.error e
    | Except.ok i =>
      let c : RemoteCall := ⟨"users.threads.delete",
        [("userId", JVal.str "me"), ("id", JVal.str i)]⟩
      Except.ok ([c], JVal.obj [("success", JVal.bool true),
        ("deleted", optJ (jsOr p.id p.threadId))])
  | "list_drafts" =>
    let c : RemoteCall := ⟨"users.drafts.list",
      [("userId", JVal.str "me")] ++ optNatArg "maxResults" p.maxResults ++
      optStrArg "pageToken" p.pageToken ++ optStrArg "q" p.q ++
      optBoolArg "includeSpamTrash" p.includeSpamTrash⟩
    Except.ok ([c], client c)
  | "get_draft" =>
    match orRequire p.id p.draftId "id or draftId" p.action with
    | Except.error e => Except.error e
    | Except.ok i =>
      let c : RemoteCall := ⟨"users.drafts.get",
        [("userId", JVal.str "me"), ("id", JVal.str i)] ++
        optStrArg "format" p.format⟩
      Except.ok ([c], client c)
  | "create_draft" =>
    let draftRaw := match truthy p.raw with
      | some r => r
      | none => encodeMessage (createEmailMessage p)
    let c : RemoteCall := ⟨"users.drafts.create",
      [("userId", JVal.str "me"), ("raw", JVal.str draftRaw)] ++
      optStrArg "threadId" p.threadId⟩
    Except.ok ([c], client c)
  | "send_draft" =>
    match orRequire p.id p.draftId "id or draftId" p.action with
    | Except.error e => Except.error e
    | Except.ok i =>
      let c : RemoteCall := ⟨"users.drafts.send",
        [("userId", JVal.str "me"), ("id", JVal.str i)]⟩
      Except.ok ([c], client c)
  | "delete_draft" =>
    match orRequire p.id p.draftId "id or draftId" p.action with
    | Except.error e => Except.error e
    | Except.ok i =>
      let c : RemoteCall := ⟨"users.drafts.delete",
        [("userId", JVal.str "me"), ("id", JVal.str i)]⟩
      Except.ok ([c], JVal.obj [("success", JVal.bool true),
        ("deleted", optJ (jsOr p.id p.draftId))])
  | "list_labels" =>
    let c : RemoteCall := ⟨"users.labels.list", [("userId", JVal.str "me")]⟩
    Except.ok ([c], client c)
  | "get_label" =>
    match orRequire p.id p.labelId "id or labelId" p.action with
    | Except.error e => Except.error e
    | Except.ok i =>
      let c : RemoteCall := ⟨"users.labels.get",
        [("userId", JVal.str "me"), ("id", JVal.str i)]⟩
      Except.ok ([c], client c)
  | "create_label" =>
    match requireParam p.name "name" p.action with
    | Except.error e => Except.error e
    | Except.ok nm =>
      let c : RemoteCall := ⟨"users.labels.create",
        [("userId", JVal.str "me"), ("name", JVal.str nm)] ++
        optStrArg "labelListVisibility" p.labelListVisibility ++
        optStrArg "messageListVisibility" p.messageListVisibility ++
        optJArg "color" p.color⟩
      Except.ok ([c], client c)
  | "update_label" =>
    match orRequire p.id p.labelId "id or labelId" p.action with
    | Except.error e => Except.error e
    | Except.ok i =>
      let c : RemoteCall := ⟨"users.labels.update",
        [("userId", JVal.str "me"), ("id", JVal.str i)] ++
        optStrArg "name" p.name ++
        optStrArg "labelListVisibility" p.labelListVisibility ++
        optStrArg "messageListVisibility" p.messageListVisibility ++
        optJArg "color" p.color⟩
      Except.ok ([c], client c)
  | "delete_label" =>
    match orRequire p.id p.labelId "id or labelId" p.action with
    | Except.error e => Except.error e
    | Except.ok i =>
      let c : RemoteCall := ⟨"users.labels.delete",
        [("userId", JVal.str "me"), ("id", JVal.str i)]⟩
      Except.ok ([c], JVal.obj [("success", JVal.bool true),
        ("deleted", optJ (jsOr p.id p.labelId))])
  | "get_profile" =>
    let c : RemoteCall := ⟨"users.getProfile", [("userId", JVal.str "me")]⟩
    Except.ok ([c], client c)
  | "get_attachment" =>
    match requireParam p.messageId "messageId" p.action with
    | Except.error e => Except.error e
    | Except.ok mid =>
      match orRequire p.id p.attachmentId "id or attachmentId" p.action with
      | Except.error e => Except.error e
      | Except.ok aid =>
        let c : RemoteCall := ⟨"users.messages.attachments.get",
          [("userId", JVal.str "me"), ("messageId", JVal.str mid),
           ("id", JVal.str aid)]⟩
        Except.ok ([c], client c)
  | "batch_modify_messages" =>
    match requireParamList p.ids "ids" p.action with
    | Except.error e => Except.error e
    | Except.ok l =>
      let c : RemoteCall := ⟨"users.messages.batchModify",
        [("userId", JVal.str "me"), ("ids", JVal.arr (l.map JVal.str))] ++
        optStrListArg "addLabelIds" p.addLabelIds ++
        optStrListArg "removeLabelIds" p.removeLabelIds⟩
      Except.ok ([c], JVal.obj [("success", JVal.bool true),
        ("modified", JVal.arr (l.map JVal.str))])
  | "batch_delete_messages" =>
    match requireParamList p.ids "ids" p.action with
    | Except.error e => Except.error e
    | Except.ok l =>
      let c : RemoteCall := ⟨"users.messages.batchDelete",
        [("userId", JVal.str "me"), ("ids", JVal.arr (l.map JVal.str))]⟩
      Except.ok ([c], JVal.obj [("success", JVal.bool true),
        ("deleted", JVal.arr (l.map JVal.str))])
  | _ => Except.error ("Unknown Gmail action: " ++ p.action)

/-- The remote calls a Gmail invocation performs (none on a validation
failure, as each branch validates before its single call). -/
def callLog (client : RemoteCall → JVal) (p : Params) : List RemoteCall :=
  match executeGmailAction client p with
  | Except.ok (cs, _) => cs
  | Except.error _ => []

/-- The `raw` argument of the single remote call a successful invocation
sent (used for `send_message` and `create_draft`). -/
def sentRaw (client : RemoteCall → JVal) (p : Params) : Option JVal :=
  match executeGmailAction client p with
  | Except.ok ([c], _) => lookupJ "raw" c.args
  | _ => none

end Gmail

namespace Notion

/-- Blank in the sense of the Notion `requireParam`: undefined or empty. -/
def blankO (v : Option String) : Prop := v = none ∨ v = some ""

instance (v : Option String) : Decidable (blankO v) := by
  unfold blankO; infer_instance

/-- The required parameters of each action, read off the `requireParam`
call sites of `executeNotionAction` (for `create_page` the database id is
only required when no explicit parent is supplied; for
`append_block_children` the requirement is the coalesced pair). -/
def requiredParams (p : Params) : List String :=
  match p.action with
  | "query_database" => ["database_id"]
  | "get_database" => ["database_id"]
  | "update_database" => ["database_id"]
  | "create_page" =>
    match p.parent with
    | some _ => []
    | none => ["database_id"]
  | "get_page" => ["page_id"]
  | "update_page" => ["page_id"]
  | "get_page_property" => ["page_id", "property_id"]
  | "get_block_children" => ["block_id"]
  | "append_block_children" => ["block_id or page_id"]
  | "get_block" => ["block_id"]
  | "update_block" => ["block_id"]
  | "delete_block" => ["block_id"]
  | "get_user" => ["user_id"]
  | "get_comments" => ["block_id"]
  | "create_comment" => ["content"]
  | _ => []

/-- The argument a required-parameter name denotes is blank in `p`. -/
def blankParam (p : Params) (paramName : String) : Prop :=
  match paramName with
  | "database_id" => blankO p.database_id
  | "page_id" => blankO p.page_id
  | "block_id" => blankO p.block_id
  | "user_id" => blankO p.user_id
  | "property_id" => blankO p.property_id
  | "content" => blankO p.content
  | "block_id or page_id" =>
    blankO (match p.block_id with
            | some s => some s
            | none => p.page_id)
  | _ => False

instance (p : Params) (n : String) : Decidable (blankParam p n) := by
  unfold blankParam
  split <;> infer_instance

end Notion

namespace Gmail

/-- The required parameters (or parameter groups, named as the thrown
message names them) of each Gmail action, read off the `requireParam` call
sites of `executeGmailAction`. -/
def requiredParams (p : Params) : List String :=
  match p.action with
  | "get_message" => ["id or messageId"]
  | "modify_message" => ["id or messageId"]
  | "trash_message" => ["id or messageId"]
  | "delete_message" => ["id or messageId"]
  | "get_thread" => ["id or threadId"]
  | "modify_thread" => ["id or threadId"]
  | "trash_thread" => ["id or threadId"]
  | "untrash_thread" => ["id or threadId"]
  | "delete_thread" => ["id or threadId"]
  | "get_draft" => ["id or draftId"]
  | "send_draft" => ["id or draftId"]
  | "delete_draft" => ["id or draftId"]
  | "get_label" => ["id or labelId"]
  | "update_label" => ["id or labelId"]
  | "delete_label" => ["id or labelId"]
  | "create_label" => ["name"]
  | "get_attachment" => ["messageId", "id or attachmentId"]
  | "batch_modify_messages" => ["ids"]
  | "batch_delete_messages" => ["ids"]
  | _ => []

/-- The arguments a required name denotes are omitted (undefined) in `p`;
the Gmail `requireParam` only fires on omission, not on empty strings. -/
def omittedParam (p : Params) (paramName : String) : Prop :=
  match paramName with
  | "id or messageId" => p.id = none ∧ p.messageId = none
  | "id or threadId" => p.id = none ∧ p.threadId = none
  | "id or draftId" => p.id = none ∧ p.draftId = none
  | "id or labelId" => p.id = none ∧ p.labelId = none
  | "id or attachmentId" => p.id = none ∧ p.attachmentId = none
  | "messageId" => p.messageId = none
  | "name" => p.name = none
  | "ids" => p.ids = none
  | _ => False

instance (p : Params) (n : String) : Decidable (omittedParam p n) := by
  unfold omittedParam
  split <;> infer_instance

end Gmail

/-- Modelled from the spec: the container-identifier resolution chain of
the calendar side (its handler sources are not part of this tree).  Spec
section 4.4 rule 1: an explicit identifier argument wins; otherwise an
alias argument is resolved through the configured alias bindings; otherwise
a configured default identifier is used; otherwise the fixed literal
fallback sentinel `primary` is used, and an unresolvable alias falls
through the default chain rather than throwing. -/
def resolveContainerId (explicit : Option String) (aliasArg : Option String)
    (bindings : List (String × String)) (dflt : Option String) : String :=
  match explicit with
  | some e => e
  | none =>
    match aliasArg.bind (fun a => (bindings.lookup a)) with
    | some b => b
    | none =>
      match dflt with
      | some d => d
      | none => "primary"

/-- Reduction of the enrichment body at an object value. -/
theorem autoAssignValue_obj (uid : String) (fields : List (String × JVal)) :
    Notion.autoAssignValue uid (JVal.obj fields) =
      match lookupJ "people" fields with
      | some (JVal.arr []) =>
        JVal.obj (setJ fields "people" (JVal.arr [JVal.obj [("id", JVal.str uid)]]))
      | _ => JVal.obj fields := rfl

/-- A property value holding a non-empty people list is left untouched by
the enrichment body. -/
theorem autoAssign_keeps_nonempty (uid : String) (fields : List (String × JVal))
    (ppl : List JVal) (hl : lookupJ "people" fields = some (JVal.arr ppl))
    (hne : ppl ≠ []) :
    Notion.autoAssignValue uid (JVal.obj fields) = JVal.obj fields := by
  cases ppl with
  | nil => exact absurd rfl hne
  | cons a l =>
    rw [autoAssignValue_obj, hl]

/-- A property value holding the empty people list is replaced by the
singleton acting-user list. -/
theorem autoAssign_fills_empty (uid : String) (fields : List (String × JVal))
    (hl : lookupJ "people" fields = some (JVal.arr [])) :
    Notion.autoAssignValue uid (JVal.obj fields) =
      JVal.obj (setJ fields "people" (JVal.arr [JVal.obj [("id", JVal.str uid)]])) := by
  rw [autoAssignValue_obj, hl]

/-- C2: with a configured acting-user id, the people-field enrichment of
`create_page` maps each supplied property in place (adding no key and
dropping none: the key list is unchanged), where the per-value map leaves
any property whose people list is non-empty untouched and replaces a
property whose people list is empty by the singleton list holding exactly
the configured acting-user id. -/
theorem c2_people_enrichment (uid : String) (huid : uid ≠ "")
    (props : List (String × JVal)) :
    Notion.ensurePeopleFieldAutoAssign (some uid) (some props) =
      some (props.map (fun kv => (kv.1, Notion.autoAssignValue uid kv.2)))
    ∧ (props.map (fun kv => (kv.1, Notion.autoAssignValue uid kv.2))).map Prod.fst =
        props.map Prod.fst
    ∧ (∀ fields ppl, lookupJ "people" fields = some (JVal.arr ppl) → ppl ≠ [] →
        Notion.autoAssignValue uid (JVal.obj fields) = JVal.obj fields)
    ∧ (∀ fields, lookupJ "people" fields = none →
        Notion.autoAssignValue uid (JVal.obj fields) = JVal.obj fields)
    ∧ (∀ fields, lookupJ "people" fields = some (JVal.arr []) →
        Notion.autoAssignValue uid (JVal.obj fields) =
          JVal.obj (setJ fields "people" (JVal.arr [JVal.obj [("id", JVal.str uid)]]))) := by
  refine ⟨?_, ?_, ?_, ?_, ?_⟩
  · unfold Notion.ensurePeopleFieldAutoAssign
    simp [huid]
  · induction props with
    | nil => rfl
    | cons kv rest ih => simp [ih]
  · exact fun fields ppl hl hne => autoAssign_keeps_nonempty uid fields ppl hl hne
  · intro fields hl
    rw [autoAssignValue_obj, hl]
  · exact fun fields hl => autoAssign_fills_empty uid fields hl

/-- Witness for C2 at the acting user `U2` and a bag holding one empty and
one already-assigned people field. -/
theorem c2_people_enrichment_witness :
    ("U2" : String) ≠ ""
    ∧ Notion.ensurePeopleFieldAutoAssign (some "U2")
        (some [("Watch", JVal.obj [("people", JVal.arr [])]),
               ("DRI", JVal.obj [("people", JVal.arr [JVal.obj [("id", JVal.str "U1")]])])]) =
      some [("Watch", JVal.obj [("people", JVal.arr [JVal.obj [("id", JVal.str "U2")]])]),
            ("DRI", JVal.obj [("people", JVal.arr [JVal.obj [("id", JVal.str "U1")]])])]
    ∧ Notion.autoAssignValue "U2"
        (JVal.obj [("people", JVal.arr [JVal.obj [("id", JVal.str "U1")]])]) =
      JVal.obj [("people", JVal.arr [JVal.obj [("id", JVal.str "U1")]])]
    ∧ Notion.autoAssignValue "U2" (JVal.obj [("people", JVal.arr [])]) =
      JVal.obj [("people", JVal.arr [JVal.obj [("id", JVal.str "U2")]])] := by
  have h := c2_people_enrichment "U2" (by decide)
    [("Watch", JVal.obj [("people", JVal.arr [])]),
     ("DRI", JVal.obj [("people", JVal.arr [JVal.obj [("id", JVal.str "U1")]])])]
  exact ⟨by decide, h.1,
    h.2.2.1 [("people", JVal.arr [JVal.obj [("id", JVal.str "U1")]])]
      [JVal.obj [("id", JVal.str "U1")]] rfl (List.cons_ne_nil _ _),
    h.2.2.2.2 [("people", JVal.arr [])] rfl⟩

/-- C10: with no configured acting-user id the enrichment is the identity,
and `create_page` with an explicit parent and no convenience title submits
exactly the caller-supplied property bag, with one `pages.create` call. -/
theorem c10_no_user_enrichment_identity :
    (∀ properties, Notion.ensurePeopleFieldAutoAssign none properties = properties)
    ∧ ∀ (client : RemoteCall → JVal) (props parentFields : List (String × JVal)),
        Notion.executeNotionAction none client
          { action := "create_page", parent := some parentFields, properties := some props } =
        Except.ok ([⟨"pages.create",
            [("parent", JVal.obj parentFields), ("properties", JVal.obj props)]⟩],
          client ⟨"pages.create",
            [("parent", JVal.obj parentFields), ("properties", JVal.obj props)]⟩) :=
  ⟨fun _ => rfl, fun _ _ _ => rfl⟩

/-- C3: the `create_page` implementation writes a convenience title under
the hardcoded literal key `title` and performs no schema lookup at all: at
the spec scenario (database `D1`, title `Fix bug`, empty property bag) the
one remote call is `pages.create` with the literal `title` property key,
and zero `databases.retrieve` schema lookups are issued. -/
theorem c3_title_literal_key_no_schema_lookup :
    Notion.executeNotionAction none (fun _ => JVal.null)
      { action := "create_page", database_id := some "D1", title := some "Fix bug",
        properties := some [] } =
      Except.ok ([⟨"pages.create",
          [("parent", JVal.obj [("database_id", JVal.str "D1")]),
           ("properties", JVal.obj [("title",
             JVal.obj [("title", Notion.titleRich "Fix bug")])])]⟩],
        JVal.null)
    ∧ (Notion.callLog none (fun _ => JVal.null)
        { action := "create_page", database_id := some "D1", title := some "Fix bug",
          properties := some [] }).filter
          (fun c => c.method == "databases.retrieve") = []
    ∧ (Notion.callLog none (fun _ => JVal.null)
        { action := "create_page", database_id := some "D1", title := some "Fix bug",
          properties := some [] }).length = 1 :=
  ⟨rfl, rfl, rfl⟩

/-- C7: a line the JSON.parse collaborator rejects adds one stderr report,
emits nothing on the response stream, and leaves the processing of every
other line untouched; in particular a following well-formed line still
receives exactly its response envelope. -/
theorem c7_malformed_line_skipped (parse : String → Option Simple.MCPRequest)
    (client : RemoteCall → JVal) (bad : String) (rest : List String)
    (hbad : parse bad = none) :
    Simple.processLines parse client (bad :: rest) =
      ((Simple.processLines parse client rest).1,
       Simple.lineErrorLog :: (Simple.processLines parse client rest).2)
    ∧ ∀ (good : String) (req : Simple.MCPRequest) (tail2 : List String),
        parse good = some req →
        (Simple.processLines parse client (bad :: good :: tail2)).1 =
          Simple.handleRequest client req :: (Simple.processLines parse client tail2).1 := by
  constructor
  · simp [Simple.processLines, hbad]
  · intro good req tail2 hgood
    simp [Simple.processLines, hbad, hgood]

/-- The JSON.parse stub for the C7 witness: exactly the line `ping` parses,
to an `initialize` request. -/
def parseStub : String → Option Simple.MCPRequest :=
  fun s => if s = "ping" then some ⟨1, "initialize", {}⟩ else none

/-- Witness for C7: the malformed line `not json` is reported on stderr
only and the following well-formed line still gets its response. -/
theorem c7_malformed_line_skipped_witness :
    parseStub "not json" = none
    ∧ Simple.processLines parseStub (fun _ => JVal.null) ["not json", "ping"] =
        ((Simple.processLines parseStub (fun _ => JVal.null) ["ping"]).1,
         Simple.lineErrorLog ::
           (Simple.processLines parseStub (fun _ => JVal.null) ["ping"]).2)
    ∧ (Simple.processLines parseStub (fun _ => JVal.null) ["not json", "ping"]).1 =
        [Simple.handleRequest (fun _ => JVal.null) ⟨1, "initialize", {}⟩] := by
  have h := c7_malformed_line_skipped parseStub (fun _ => JVal.null) "not json" ["ping"] rfl
  exact ⟨rfl, h.1, h.2 "ping" ⟨1, "initialize", {}⟩ [] rfl⟩

/-- C8: the action set enumerated in the declared tool schema is exactly
the set of actions the dispatcher switch handles — a `use_notion` call
succeeds (does not hit the unknown-action default, for any stubbed client
and any arguments) precisely when its action is in the declared enum. -/
theorem c8_schema_matches_dispatch : ∀ (client : RemoteCall → JVal) (p : Notion.Params),
    isOkE (Simple.handleToolCall client p) = true ↔ p.action ∈ Simple.declaredActions := by
  intro client p
  have hcore : isOkE (Simple.handleToolCallCore client p) = true ↔
      p.action ∈ Simple.declaredActions := by
    unfold Simple.handleToolCallCore
    split <;> simp_all [Simple.declaredActions, isOkE]
  unfold Simple.handleToolCall
  cases hres : Simple.handleToolCallCore client p with
  | ok v => simpa [hres, isOkE] using hcore
  | error m => simpa [hres, isOkE] using hcore

/-- C4: an action outside the enumerated set is rejected by the dispatcher
default case, and the tool handler catches the throw and returns an
error-shaped envelope (`isError` true) whose text names the unknown action;
the handler is a total function, so no exception escapes. -/
theorem c4_unknown_action_rejected :
    ∀ (uid : Option String) (client : RemoteCall → JVal) (p : Notion.Params),
    p.action ∉ Notion.actionValues →
    Notion.useNotionHandler uid client p =
      ⟨JVal.obj [("type", JVal.str "text"),
        ("text", JVal.str ("Error: " ++ ("Unknown action: " ++ p.action)))], true⟩ := by
  intro uid client p hp
  have hexec : Notion.executeNotionAction uid client p =
      Except.error ("Unknown action: " ++ p.action) := by
    unfold Notion.executeNotionAction
    split <;> simp_all [Notion.actionValues]
  unfold Notion.useNotionHandler
  rw [hexec]

/-- Witness for C4 at the spec scenario action `delete_everything`. -/
theorem c4_unknown_action_rejected_witness :
    "delete_everything" ∉ Notion.actionValues
    ∧ Notion.useNotionHandler none (fun _ => JVal.null) { action := "delete_everything" } =
      ⟨JVal.obj [("type", JVal.str "text"),
        ("text", JVal.str ("Error: " ++ ("Unknown action: " ++ "delete_everything")))], true⟩ :=
  ⟨by decide,
   c4_unknown_action_rejected none (fun _ => JVal.null) { action := "delete_everything" }
     (by decide)⟩

/-- C1 (amended): for every action, omitting a required parameter — and,
on the Notion side, also supplying it present-but-empty, since the Notion
`requireParam` additionally rejects the empty string — while the other
required parameters are satisfied yields the validation error naming both
that parameter (or parameter group, as the message spells it) and that
action, with zero remote calls performed; on the Gmail side only omission
(undefined) is rejected. -/
theorem c1_missing_param_fails_fast :
    (∀ (uid : Option String) (client : RemoteCall → JVal) (p : Notion.Params) (n : String),
      n ∈ Notion.requiredParams p → Notion.blankParam p n →
      (∀ m ∈ Notion.requiredParams p, m ≠ n → ¬ Notion.blankParam p m) →
      Notion.executeNotionAction uid client p = Except.error (Notion.requireMsg n p.action)
      ∧ Notion.callLog uid client p = [])
    ∧ (∀ (client : RemoteCall → JVal) (p : Gmail.Params) (n : String),
      n ∈ Gmail.requiredParams p → Gmail.omittedParam p n →
      (∀ m ∈ Gmail.requiredParams p, m ≠ n → ¬ Gmail.omittedParam p m) →
      Gmail.executeGmailAction client p = Except.error (Gmail.requireMsg n p.action)
      ∧ Gmail.callLog client p = []) := by
  constructor
  · intro uid client p n hn hblank hothers
    have herr : Notion.executeNotionAction uid client p =
        Except.error (Notion.requireMsg n p.action) := by
      unfold Notion.executeNotionAction
      unfold Notion.requiredParams at hn hothers
      split at hn <;> rename_i heq
      case h_4 =>
        -- create_page: database_id is only required without an explicit parent
        split at hn
        · exact absurd hn (List.not_mem_nil n)
        · rename_i hpar
          simp only [List.mem_singleton] at hn
          subst hn
          simp only [heq, hpar]
          rcases (hblank : p.database_id = none ∨ p.database_id = some "") with h | h <;>
            simp [Notion.requireParam, h]
      case h_7 =>
        -- get_page_property: page_id is checked before property_id
        simp only [heq] at hothers
        simp at hn
        rcases hn with rfl | rfl
        · simp only [heq]
          rcases (hblank : p.page_id = none ∨ p.page_id = some "") with h | h <;>
            simp [Notion.requireParam, h]
        · simp only [heq]
          have hpg : ¬ (p.page_id = none ∨ p.page_id = some "") :=
            hothers "page_id" (by simp) (by decide)
          rcases hx : p.page_id with _ | s
          · exact absurd (Or.inl hx) hpg
          · have hs : ¬ s = "" := fun hs0 => hpg (Or.inr (by rw [hx, hs0]))
            rcases (hblank : p.property_id = none ∨ p.property_id = some "") with h | h <;>
              simp [Notion.requireParam, hx, hs, h]
      all_goals
        first
        | exact absurd hn (List.not_mem_nil n)
        | (simp only [List.mem_singleton] at hn
           subst hn
           simp only [heq]
           first
           | (rcases (hblank : p.database_id = none ∨ p.database_id = some "") with h | h <;>
               simp [Notion.requireParam, h])
           | (rcases (hblank : p.page_id = none ∨ p.page_id = some "") with h | h <;>
               simp [Notion.requireParam, h])
           | (rcases (hblank : p.block_id = none ∨ p.block_id = some "") with h | h <;>
               simp [Notion.requireParam, h])
           | (rcases (hblank : p.user_id = none ∨ p.user_id = some "") with h | h <;>
               simp [Notion.requireParam, h])
           | (rcases (hblank : p.content = none ∨ p.content = some "") with h | h <;>
               simp [Notion.requireParam, h])
           | (rcases (hblank : (match p.block_id with | some s => some s | none => p.page_id) = none ∨
                 (match p.block_id with | some s => some s | none => p.page_id) = some "") with h | h <;>
               simp [Notion.requireParam, h]))
    exact ⟨herr, by simp [Notion.callLog, herr]⟩
  · intro client p n hn hblank hothers
    have herr : Gmail.executeGmailAction client p =
        Except.error (Gmail.requireMsg n p.action) := by
      unfold Gmail.executeGmailAction
      unfold Gmail.requiredParams at hn hothers
      split at hn <;> rename_i heq
      case h_17 =>
        -- get_attachment: messageId is checked before the id/attachmentId pair
        simp only [heq] at hothers
        simp at hn
        rcases hn with rfl | rfl
        · simp only [heq]
          have hb : p.messageId = none := hblank
          simp [Gmail.requireParam, hb]
        · simp only [heq]
          have hmg : ¬ p.messageId = none := hothers "messageId" (by simp) (by decide)
          rcases hmx : p.messageId with _ | m
          · exact absurd hmx hmg
          · obtain ⟨h1, h2⟩ := (hblank : p.id = none ∧ p.attachmentId = none)
            simp [Gmail.requireParam, Gmail.orRequire, hmx, h1, h2]
      all_goals
        first
        | exact absurd hn (List.not_mem_nil n)
        | (simp only [List.mem_singleton] at hn
           subst hn
           simp only [heq]
           first
           | (obtain ⟨h1, h2⟩ := (hblank : p.id = none ∧ p.messageId = none)
              simp [Gmail.orRequire, Gmail.requireParam, h1, h2])
           | (obtain ⟨h1, h2⟩ := (hblank : p.id = none ∧ p.threadId = none)
              simp [Gmail.orRequire, Gmail.requireParam, h1, h2])
           | (obtain ⟨h1, h2⟩ := (hblank : p.id = none ∧ p.draftId = none)
              simp [Gmail.orRequire, Gmail.requireParam, h1, h2])
           | (obtain ⟨h1, h2⟩ := (hblank : p.id = none ∧ p.labelId = none)
              simp [Gmail.orRequire, Gmail.requireParam, h1, h2])
           | (have hb : p.name = none := hblank
              simp [Gmail.requireParam, hb])
           | (have hb : p.ids = none := hblank
              simp [Gmail.requireParamList, hb]))
    exact ⟨herr, by simp [Gmail.callLog, herr]⟩

/-- Witness for C1: `get_page` without a page id fails with the message
naming both, calling nothing; `create_label` without a name likewise. -/
theorem c1_missing_param_fails_fast_witness :
    Notion.executeNotionAction none (fun _ => JVal.null) { action := "get_page" } =
      Except.error (Notion.requireMsg "page_id" "get_page")
    ∧ Notion.callLog none (fun _ => JVal.null) { action := "get_page" } = []
    ∧ Gmail.executeGmailAction (fun _ => JVal.null) { action := "create_label" } =
      Except.error (Gmail.requireMsg "name" "create_label")
    ∧ Gmail.callLog (fun _ => JVal.null) { action := "create_label" } = [] := by
  have hA := c1_missing_param_fails_fast.1 none (fun _ => JVal.null)
    { action := "get_page" } "page_id" (by decide) (by decide) (by decide)
  have hB := c1_missing_param_fails_fast.2 (fun _ => JVal.null)
    { action := "create_label" } "name" (by decide) (by decide) (by decide)
  exact ⟨hA.1, hA.2, hB.1, hB.2⟩

/-- Counterexample to C1 as stated: on the Gmail side a required parameter
that is present but empty is not rejected — `get_message` with
`messageId` set to the empty string passes validation and performs the
remote call (one network call, no validation error). -/
theorem c1_counterexample_gmail_empty_param :
    Gmail.executeGmailAction (fun _ => JVal.null)
      { action := "get_message", messageId := some "" } =
      Except.ok ([⟨"users.messages.get",
        [("userId", JVal.str "me"), ("id", JVal.str ""),
         ("format", JVal.str "full")]⟩], JVal.null)
    ∧ (Gmail.callLog (fun _ => JVal.null)
        { action := "get_message", messageId := some "" }).length = 1 :=
  ⟨rfl, rfl⟩

/-- C5: the resolution chain is explicit identifier, then alias binding,
then configured default, then the fixed `primary` fallback; every resolved
identifier is traceable to one of these four sources; and on the Gmail side
the explicit `id` argument takes precedence over the type-specific id (the
one remote call of `get_message` targets the explicit id whatever
`messageId` holds). -/
theorem c5_identifier_resolution :
    (∀ (e : String) (al : Option String) (bindings : List (String × String))
       (dflt : Option String), resolveContainerId (some e) al bindings dflt = e)
    ∧ (∀ (a b : String) (bindings : List (String × String)) (dflt : Option String),
       bindings.lookup a = some b → resolveContainerId none (some a) bindings dflt = b)
    ∧ (∀ (al : Option String) (bindings : List (String × String)) (d : String),
       al.bind (fun a => bindings.lookup a) = none →
       resolveContainerId none al bindings (some d) = d)
    ∧ (∀ (al : Option String) (bindings : List (String × String)),
       al.bind (fun a => bindings.lookup a) = none →
       resolveContainerId none al bindings none = "primary")
    ∧ (∀ (explicit al : Option String) (bindings : List (String × String))
         (dflt : Option String),
       (∃ x, explicit = some x ∧ resolveContainerId explicit al bindings dflt = x)
       ∨ (∃ a b, al = some a ∧ bindings.lookup a = some b ∧
            resolveContainerId explicit al bindings dflt = b)
       ∨ (∃ d, dflt = some d ∧ resolveContainerId explicit al bindings dflt = d)
       ∨ resolveContainerId explicit al bindings dflt = "primary")
    ∧ (∀ (client : RemoteCall → JVal) (p : Gmail.Params) (s : String),
       p.action = "get_message" → p.id = some s → s ≠ "" →
       ∃ c, Gmail.executeGmailAction client p = Except.ok ([c], client c)
         ∧ c.method = "users.messages.get" ∧ lookupJ "id" c.args = some (JVal.str s)) := by
  refine ⟨fun e al bindings dflt => rfl, ?_, ?_, ?_, ?_, ?_⟩
  · intro a b bindings dflt h
    simp [resolveContainerId, h]
  · intro al bindings d h
    simp [resolveContainerId, h]
  · intro al bindings h
    simp [resolveContainerId, h]
  · intro explicit al bindings dflt
    cases explicit with
    | some e => exact Or.inl ⟨e, rfl, rfl⟩
    | none =>
      cases hb : al.bind (fun a => bindings.lookup a) with
      | some b =>
        cases al with
        | none => simp at hb
        | some a =>
          refine Or.inr (Or.inl ⟨a, b, rfl, by simpa using hb, ?_⟩)
          simp [resolveContainerId, (by simpa using hb : bindings.lookup a = some b)]
      | none =>
        cases dflt with
        | some d =>
          exact Or.inr (Or.inr (Or.inl ⟨d, rfl, by simp [resolveContainerId, hb]⟩))
        | none => exact Or.inr (Or.inr (Or.inr (by simp [resolveContainerId, hb])))
  · intro client p s ha hid hs
    refine ⟨⟨"users.messages.get",
      [("userId", JVal.str "me"), ("id", JVal.str s),
       ("format", JVal.str ((truthy p.format).getD "full"))] ++
      optStrListArg "metadataHeaders" p.metadataHeaders⟩, ?_, rfl, ?_⟩
    · unfold Gmail.executeGmailAction
      simp only [ha]
      simp [Gmail.orRequire, hid, hs]
    · simp [lookupJ]

/-- Witness for C5: with all four sources present the explicit id wins;
dropping it the alias binding wins; dropping that the configured default
wins; dropping that the `primary` fallback is used; and a `get_message`
carrying both `id` and `messageId` targets the explicit `id`. -/
theorem c5_identifier_resolution_witness :
    resolveContainerId (some "CAL1") (some "work") [("work", "W")] (some "D") = "CAL1"
    ∧ resolveContainerId none (some "work") [("work", "W")] (some "D") = "W"
    ∧ resolveContainerId none (some "gym") [("work", "W")] (some "D") = "D"
    ∧ resolveContainerId none (some "gym") [("work", "W")] none = "primary"
    ∧ ∃ c, Gmail.executeGmailAction (fun _ => JVal.null)
        { action := "get_message", id := some "M1", messageId := some "M2" } =
          Except.ok ([c], JVal.null)
        ∧ c.method = "users.messages.get" ∧ lookupJ "id" c.args = some (JVal.str "M1") := by
  refine ⟨c5_identifier_resolution.1 "CAL1" (some "work") [("work", "W")] (some "D"),
    c5_identifier_resolution.2.1 "work" "W" [("work", "W")] (some "D") rfl,
    c5_identifier_resolution.2.2.1 (some "gym") [("work", "W")] "D" rfl,
    c5_identifier_resolution.2.2.2.1 (some "gym") [("work", "W")] rfl, ?_⟩
  exact c5_identifier_resolution.2.2.2.2.2 (fun _ => JVal.null)
    { action := "get_message", id := some "M1", messageId := some "M2" } "M1"
    rfl rfl (by decide)

/-- C6 (amended): for `send_message` and `create_draft`, a non-empty
pre-encoded `raw` is used unchanged; when `raw` is absent or empty the sent
body is the deterministic encoding of the structured fields — the header
lines in the fixed order To, Cc, Bcc, Subject (each only when present and
non-empty), then Content-Type and MIME-Version, a blank line and the body,
joined with CRLF and base64url-encoded — and it depends only on the
structured fields to, cc, bcc, subject and body, so identical structured
input gives byte-identical encoded output. -/
theorem c6_message_encoding :
    (∀ (client : RemoteCall → JVal) (p : Gmail.Params) (r : String),
      p.action = "send_message" → p.raw = some r → r ≠ "" →
      Gmail.sentRaw client p = some (JVal.str r))
    ∧ (∀ (client : RemoteCall → JVal) (p : Gmail.Params),
      p.action = "send_message" → truthy p.raw = none →
      Gmail.sentRaw client p =
        some (JVal.str (Gmail.encodeMessage (Gmail.createEmailMessage p))))
    ∧ (∀ (client : RemoteCall → JVal) (p : Gmail.Params) (r : String),
      p.action = "create_draft" → p.raw = some r → r ≠ "" →
      Gmail.sentRaw client p = some (JVal.str r))
    ∧ (∀ (client : RemoteCall → JVal) (p : Gmail.Params),
      p.action = "create_draft" → truthy p.raw = none →
      Gmail.sentRaw client p =
        some (JVal.str (Gmail.encodeMessage (Gmail.createEmailMessage p))))
    ∧ (∀ p q : Gmail.Params, p.«to» = q.«to» → p.cc = q.cc → p.bcc = q.bcc →
      p.subject = q.subject → p.body = q.body →
      Gmail.createEmailMessage p = Gmail.createEmailMessage q)
    ∧ (∀ (tos ccs bccs : List String) (subj bdy : String) (p : Gmail.Params),
      p.«to» = some tos → p.cc = some ccs → p.bcc = some bccs →
      p.subject = some subj → p.body = some bdy →
      tos ≠ [] → ccs ≠ [] → bccs ≠ [] → subj ≠ "" →
      Gmail.createEmailMessage p =
        String.intercalate "\r\n"
          ["To: " ++ String.intercalate ", " tos,
           "Cc: " ++ String.intercalate ", " ccs,
           "Bcc: " ++ String.intercalate ", " bccs,
           "Subject: " ++ subj,
           "Content-Type: text/plain; charset=utf-8", "MIME-Version: 1.0", "", bdy]) := by
  refine ⟨?_, ?_, ?_, ?_, ?_, ?_⟩
  · intro client p r ha hr hne
    unfold Gmail.sentRaw Gmail.executeGmailAction
    simp only [ha]
    simp [truthy, hr, hne, lookupJ]
  · intro client p ha hr
    unfold Gmail.sentRaw Gmail.executeGmailAction
    simp only [ha]
    simp [hr, lookupJ]
  · intro client p r ha hr hne
    unfold Gmail.sentRaw Gmail.executeGmailAction
    simp only [ha]
    simp [truthy, hr, hne, lookupJ]
  · intro client p ha hr
    unfold Gmail.sentRaw Gmail.executeGmailAction
    simp only [ha]
    simp [hr, lookupJ]
  · intro p q h1 h2 h3 h4 h5
    unfold Gmail.createEmailMessage
    rw [h1, h2, h3, h4, h5]
  · intro tos ccs bccs subj bdy p h1 h2 h3 h4 h5 h6 h7 h8 h9
    have ht : tos.isEmpty = false := by simpa [List.isEmpty_iff] using h6
    have hc : ccs.isEmpty = false := by simpa [List.isEmpty_iff] using h7
    have hb : bccs.isEmpty = false := by simpa [List.isEmpty_iff] using h8
    unfold Gmail.createEmailMessage
    rw [h1, h2, h3, h4, h5]
    simp [truthy, ht, hc, hb, h9]

/-- Witness for C6: a non-empty raw is forwarded unchanged; without raw the
encoding of the structured parts is sent; the construction reads only the
five structured fields; and the fully-populated message has the fixed
header order. -/
theorem c6_message_encoding_witness :
    Gmail.sentRaw (fun _ => JVal.null) { action := "send_message", raw := some "RAWX" } =
      some (JVal.str "RAWX")
    ∧ Gmail.sentRaw (fun _ => JVal.null)
        { action := "send_message", «to» := some ["a@x.com"], subject := some "S",
          body := some "B" } =
      some (JVal.str (Gmail.encodeMessage (Gmail.createEmailMessage
        { action := "send_message", «to» := some ["a@x.com"], subject := some "S",
          body := some "B" })))
    ∧ Gmail.createEmailMessage
        { action := "send_message", «to» := some ["a@x.com"], subject := some "S",
          body := some "B" } =
      Gmail.createEmailMessage
        { action := "send_message", «to» := some ["a@x.com"], subject := some "S",
          body := some "B", maxResults := some 7 }
    ∧ Gmail.createEmailMessage
        { action := "send_message", «to» := some ["a@x.com"], cc := some ["c@x.com"],
          bcc := some ["b@x.com"], subject := some "S", body := some "B" } =
      String.intercalate "\r\n"
        ["To: a@x.com", "Cc: c@x.com", "Bcc: b@x.com", "Subject: S",
         "Content-Type: text/plain; charset=utf-8", "MIME-Version: 1.0", "", "B"] := by
  refine ⟨c6_message_encoding.1 (fun _ => JVal.null) _ "RAWX" rfl rfl (by decide),
    c6_message_encoding.2.1 (fun _ => JVal.null) _ rfl rfl, ?_, ?_⟩
  · exact c6_message_encoding.2.2.2.2.1 _ _ rfl rfl rfl rfl rfl
  · have h := c6_message_encoding.2.2.2.2.2 ["a@x.com"] ["c@x.com"] ["b@x.com"] "S" "B"
      { action := "send_message", «to» := some ["a@x.com"], cc := some ["c@x.com"],
        bcc := some ["b@x.com"], subject := some "S", body := some "B" }
      rfl rfl rfl rfl rfl (by decide) (by decide) (by decide) (by decide)
    simpa using h

/-- Counterexample to C6 as stated: a `raw` that is present but empty is
not used unchanged — the body is rebuilt from the structured fields and the
sent raw is the non-empty constructed encoding, not the supplied empty
string. -/
theorem c6_counterexample_empty_raw :
    ({ action := "send_message", raw := some "", «to» := some ["a@x.com"],
       subject := some "S", body := some "B" } : Gmail.Params).raw = some ""
    ∧ Gmail.sentRaw (fun _ => JVal.null)
        { action := "send_message", raw := some "", «to» := some ["a@x.com"],
          subject := some "S", body := some "B" } =
      some (JVal.str (Gmail.encodeMessage (Gmail.createEmailMessage
        { action := "send_message", raw := some "", «to» := some ["a@x.com"],
          subject := some "S", body := some "B" })))
    ∧ Gmail.encodeMessage (Gmail.createEmailMessage
        { action := "send_message", raw := some "", «to» := some ["a@x.com"],
          subject := some "S", body := some "B" }) ≠ "" :=
  ⟨rfl, rfl, by decide⟩

/-- C9 (amended): every delete action returns the boolean-confirmation
shape (`success: true` plus the deleted id or ids), not the remote object;
the trash and untrash actions, by contrast, return the remote object
passed through from the client. -/
theorem c9_delete_confirmation_shape :
    (∀ (client : RemoteCall → JVal) (i : String), i ≠ "" →
      Gmail.executeGmailAction client { action := "delete_message", id := some i } =
        Except.ok ([⟨"users.messages.delete",
            [("userId", JVal.str "me"), ("id", JVal.str i)]⟩],
          JVal.obj [("success", JVal.bool true), ("deleted", JVal.str i)]))
    ∧ (∀ (client : RemoteCall → JVal) (i : String), i ≠ "" →
      Gmail.executeGmailAction client { action := "delete_thread", id := some i } =
        Except.ok ([⟨"users.threads.delete",
            [("userId", JVal.str "me"), ("id", JVal.str i)]⟩],
          JVal.obj [("success", JVal.bool true), ("deleted", JVal.str i)]))
    ∧ (∀ (client : RemoteCall → JVal) (i : String), i ≠ "" →
      Gmail.executeGmailAction client { action := "delete_draft", id := some i } =
        Except.ok ([⟨"users.drafts.delete",
            [("userId", JVal.str "me"), ("id", JVal.str i)]⟩],
          JVal.obj [("success", JVal.bool true), ("deleted", JVal.str i)]))
    ∧ (∀ (client : RemoteCall → JVal) (i : String), i ≠ "" →
      Gmail.executeGmailAction client { action := "delete_label", id := some i } =
        Except.ok ([⟨"users.labels.delete",
            [("userId", JVal.str "me"), ("id", JVal.str i)]⟩],
          JVal.obj [("success", JVal.bool true), ("deleted", JVal.str i)]))
    ∧ (∀ (client : RemoteCall → JVal) (l : List String),
      Gmail.executeGmailAction client { action := "batch_delete_messages", ids := some l } =
        Except.ok ([⟨"users.messages.batchDelete",
            [("userId", JVal.str "me"), ("ids", JVal.arr (l.map JVal.str))]⟩],
          JVal.obj [("success", JVal.bool true), ("deleted", JVal.arr (l.map JVal.str))]))
    ∧ (∀ (client : RemoteCall → JVal) (i : String), i ≠ "" →
      Gmail.executeGmailAction client { action := "trash_message", id := some i } =
        Except.ok ([⟨"users.messages.trash",
            [("userId", JVal.str "me"), ("id", JVal.str i)]⟩],
          client ⟨"users.messages.trash",
            [("userId", JVal.str "me"), ("id", JVal.str i)]⟩))
    ∧ (∀ (client : RemoteCall → JVal) (i : String), i ≠ "" →
      Gmail.executeGmailAction client { action := "trash_thread", id := some i } =
        Except.ok ([⟨"users.threads.trash",
            [("userId", JVal.str "me"), ("id", JVal.str i)]⟩],
          client ⟨"users.threads.trash",
            [("userId", JVal.str "me"), ("id", JVal.str i)]⟩))
    ∧ (∀ (client : RemoteCall → JVal) (i : String), i ≠ "" →
      Gmail.executeGmailAction client { action := "untrash_thread", id := some i } =
        Except.ok ([⟨"users.threads.untrash",
            [("userId", JVal.str "me"), ("id", JVal.str i)]⟩],
          client ⟨"users.threads.untrash",
            [("userId", JVal.str "me"), ("id", JVal.str i)]⟩)) := by
  refine ⟨?_, ?_, ?_, ?_, fun client l => rfl, ?_, ?_, ?_⟩ <;>
    intro client i hi <;>
    simp [Gmail.executeGmailAction, Gmail.orRequire, jsOr, optJ, hi]

/-- Witness for C9 at the id `m1` and the batch list `[m1, m2]`. -/
theorem c9_delete_confirmation_shape_witness :
    Gmail.executeGmailAction (fun _ => JVal.null)
      { action := "delete_message", id := some "m1" } =
      Except.ok ([⟨"users.messages.delete",
          [("userId", JVal.str "me"), ("id", JVal.str "m1")]⟩],
        JVal.obj [("success", JVal.bool true), ("deleted", JVal.str "m1")])
    ∧ Gmail.executeGmailAction (fun _ => JVal.null)
        { action := "batch_delete_messages", ids := some ["m1", "m2"] } =
      Except.ok ([⟨"users.messages.batchDelete",
          [("userId", JVal.str "me"),
           ("ids", JVal.arr [JVal.str "m1", JVal.str "m2"])]⟩],
        JVal.obj [("success", JVal.bool true),
          ("deleted", JVal.arr [JVal.str "m1", JVal.str "m2"])])
    ∧ Gmail.executeGmailAction (fun _ => JVal.null)
        { action := "trash_message", id := some "m1" } =
      Except.ok ([⟨"users.messages.trash",
          [("userId", JVal.str "me"), ("id", JVal.str "m1")]⟩], JVal.null) := by
  refine ⟨c9_delete_confirmation_shape.1 (fun _ => JVal.null) "m1" (by decide), ?_, ?_⟩
  · exact c9_delete_confirmation_shape.2.2.2.2.1 (fun _ => JVal.null) ["m1", "m2"]
  · exact c9_delete_confirmation_shape.2.2.2.2.2.1 (fun _ => JVal.null) "m1" (by decide)

/-- Counterexample to C9 as stated: `trash_message` does not return a
boolean-confirmation shape — it passes the remote (trashed) object through
from the client, and that result carries no `success` member. -/
theorem c9_counterexample_trash_returns_object :
    Gmail.executeGmailAction
      (fun _ => JVal.obj [("id", JVal.str "m1"), ("labelIds", JVal.arr [JVal.str "TRASH"])])
      { action := "trash_message", id := some "m1" } =
      Except.ok ([⟨"users.messages.trash",
          [("userId", JVal.str "me"), ("id", JVal.str "m1")]⟩],
        JVal.obj [("id", JVal.str "m1"), ("labelIds", JVal.arr [JVal.str "TRASH"])])
    ∧ lookupJ "success"
        [("id", JVal.str "m1"), ("labelIds", JVal.arr [JVal.str "TRASH"])] = none :=
  ⟨rfl, rfl⟩
